import Mathlib

/-!
Shallow embedding of the trading bot's strategy engine and orchestrator
(`src/modernized_code/strategies/*.py`, `src/modernized_code/trading.py`).

Prices and balances are modelled as rationals (`ℚ`); Python float behaviour
that matters to the claims (division by zero raising `ZeroDivisionError` in
the orchestrator, NumPy's IEEE `inf`/`NaN` propagation in the RSI division)
is made explicit with `Option`.  Each strategy's mutable object state becomes
a structure, and methods become functions from state to state (and, for
`execute`, to an optional signal paired with the post-call state, so that any
mutation performed by `execute` is observable).
-/

namespace TraderBot

/-- Signal direction (`TradeSignal.BUY` / `TradeSignal.SELL`). -/
inductive SignalType where
  | BUY
  | SELL
deriving DecidableEq, Repr

/-- Modelled from the spec: `TradeSignal` lives in `strategy_interface.py`,
which is not part of the sources; per the spec a Signal is
{direction, price, timestamp, confidence ∈ [0,1] defaulting to 1.0},
immutable once created. -/
structure TradeSignal where
  type : SignalType
  price : ℚ
  timestamp : ℕ
  confidence : ℚ := 1
deriving DecidableEq, Repr

/-- Last-crossover memory cell of the MA / MACD strategies
(`'bullish'` / `'bearish'`, initially `None`). -/
inductive Crossover where
  | bullish
  | bearish
deriving DecidableEq, Repr

/-- Last-action memory cell of the RSI strategy (`'buy'` / `'sell'`). -/
inductive Action where
  | buy
  | sell
deriving DecidableEq, Repr

/-- Python negative index `l[-1]` (only used under guards that make the
default unreachable). -/
def idx1 (l : List ℚ) : ℚ := l.getD (l.length - 1) 0

/-- Python negative index `l[-2]` (only used under guards that make the
default unreachable). -/
def idx2 (l : List ℚ) : ℚ := l.getD (l.length - 2) 0

/-! ## Moving-Average Crossover strategy
(`strategies/moving_average_crossover.py`) -/

/-- State of `MovingAverageCrossover`: parameters, close-price series,
both derived MA series and the last-crossover memory. -/
structure MAState where
  fast_period : ℕ
  slow_period : ℕ
  prices : List ℚ
  fast_ma : List ℚ
  slow_ma : List ℚ
  last_crossover : Option Crossover
deriving DecidableEq, Repr

/-- `MovingAverageCrossover.__init__(fast_period, slow_period)`. -/
def MAState.init (fast_period slow_period : ℕ) : MAState :=
  { fast_period := fast_period
    slow_period := slow_period
    prices := []
    fast_ma := []
    slow_ma := []
    last_crossover := none }

/-- `_calculate_simple_ma(data, period)`: one SMA value per window
`data[i:i+period]`, `i` ranging over `range(len(data) - period + 1)`
(empty when the Python range is empty, hence the truncated subtraction
`data.length + 1 - period`, which equals `len(data) - period + 1` for
`period ≥ 1` and clamps at `0` exactly when the Python range is empty). -/
def calcSimpleMa (data : List ℚ) (period : ℕ) : List ℚ :=
  (List.range (data.length + 1 - period)).map fun i =>
    (((data.drop i).take period).sum) / (period : ℚ)

/-- `_calculate_moving_averages`: recompute both MA series from the retained
prices, but only when `len(prices) >= slow_period`; otherwise the previously
computed series are left untouched. -/
def MAState.calculateMovingAverages (s : MAState) : MAState :=
  if s.slow_period ≤ s.prices.length then
    { s with
      fast_ma := calcSimpleMa s.prices s.fast_period
      slow_ma := calcSimpleMa s.prices s.slow_period }
  else s

/-- `feed_ohlc(ohlc_data)`: REPLACES the close-price series with the batch's
closes (`self.prices = [candle['close'] for candle in ohlc_data]`) and then
recomputes the moving averages.  Candles are represented by their close
prices, the only field the method reads. -/
def MAState.feedOhlc (s : MAState) (closes : List ℚ) : MAState :=
  MAState.calculateMovingAverages { s with prices := closes }

/-- The orchestrator's streaming path for closed candles (`_on_kline`):
each closed candle is forwarded as a singleton batch
`self.strategy.feed_ohlc([kline])`. -/
def MAState.streamFeed (s : MAState) (closes : List ℚ) : MAState :=
  closes.foldl (fun st c => st.feedOhlc [c]) s

/-- `MovingAverageCrossover.execute(current_price, in_position)`.  The
`now` parameter stands for Python's `int(time.time())`.  Returns the optional
signal together with the post-call state, making the write to
`self.last_crossover` in the signalling branches explicit. -/
def MAState.execute (s : MAState) (current_price : ℚ) (in_position : Bool)
    (now : ℕ) : Option TradeSignal × MAState :=
  if s.fast_ma.length < 2 ∨ s.slow_ma.length < 2 then (none, s)
  else
    let current_fast := idx1 s.fast_ma
    let current_slow := idx1 s.slow_ma
    let previous_fast := idx2 s.fast_ma
    let previous_slow := idx2 s.slow_ma
    if previous_fast ≤ previous_slow ∧ current_fast > current_slow then
      if ¬ in_position then
        (some { type := .BUY, price := current_price, timestamp := now },
         { s with last_crossover := some .bullish })
      else (none, s)
    else if previous_fast ≥ previous_slow ∧ current_fast < current_slow then
      if in_position then
        (some { type := .SELL, price := current_price, timestamp := now },
         { s with last_crossover := some .bearish })
      else (none, s)
    else (none, s)

/-! ## RSI strategy (`strategies/rsi_strategy.py`)

RSI values can be NaN in the Python code (NumPy's `0/0`), so the derived
series elements are `Option ℚ`: `none` stands for NaN. -/

/-- State of `RSIStrategy`: parameters, close-price series, derived RSI
series and the last-action memory. -/
structure RSIState where
  period : ℕ
  oversold : ℚ
  overbought : ℚ
  prices : List ℚ
  rsi_values : List (Option ℚ)
  last_action : Option Action
deriving DecidableEq, Repr

/-- `RSIStrategy.__init__(period, oversold, overbought)`. -/
def RSIState.init (period : ℕ) (oversold overbought : ℚ) : RSIState :=
  { period := period
    oversold := oversold
    overbought := overbought
    prices := []
    rsi_values := []
    last_action := none }

/-- `np.diff(prices)`: consecutive differences `prices[i+1] - prices[i]`. -/
def diffs (prices : List ℚ) : List ℚ :=
  (prices.zip prices.tail).map fun p => p.2 - p.1

/-- Wilder smoothing: the running averages list seeded with the simple mean
of the first `period` values, then `avg = (avg_prev*(period-1) + v)/period`
for every later value (the loop `for i in range(period, len(deltas))`). -/
def smoothedAvgs (period : ℕ) (vals : List ℚ) : List ℚ :=
  (vals.drop period).scanl
    (fun prev v => (prev * ((period : ℚ) - 1) + v) / (period : ℚ))
    (((vals.take period).sum) / (period : ℚ))

/-- One RSI value from an (avgGain, avgLoss) pair.  The Python code computes
`rs = avg_gain / avg_loss; rsi = 100 - 100/(1+rs)` over NumPy floats with NO
special case; this definition spells out the IEEE semantics of that
expression for the nonnegative averages the code produces:
`avg_loss ≠ 0` gives the ordinary value, `avg_gain ≠ 0 = avg_loss` gives
`rs = +inf` hence `rsi = 100`, and `0/0` gives NaN (`none`). -/
def rsiOf (g l : ℚ) : Option ℚ :=
  if l ≠ 0 then some (100 - 100 / (1 + g / l))
  else if g ≠ 0 then some 100
  else none

/-- The RSI series computed by the body of `_calculate_rsi` from a price
series (gains/losses split, seeded smoothed averages, and the elementwise
`100 - 100/(1 + avg_gain/avg_loss)`). -/
def rsiSeries (prices : List ℚ) (period : ℕ) : List (Option ℚ) :=
  let ds := diffs prices
  let gains := ds.map fun d => max d 0
  let losses := ds.map fun d => max (-d) 0
  let avg_gain := smoothedAvgs period gains
  let avg_loss := smoothedAvgs period losses
  (avg_gain.zip avg_loss).map fun p => rsiOf p.1 p.2

/-- `_calculate_rsi`: early-returns (leaving `rsi_values` untouched) unless
`len(prices) > period`; otherwise replaces `rsi_values` with the freshly
computed series. -/
def RSIState.calculateRsi (s : RSIState) : RSIState :=
  if s.prices.length ≤ s.period then s
  else { s with rsi_values := rsiSeries s.prices s.period }

/-- `RSIStrategy.feed_ohlc(ohlc_data)`: replaces the close-price series with
the batch's closes, then recomputes RSI. -/
def RSIState.feedOhlc (s : RSIState) (closes : List ℚ) : RSIState :=
  RSIState.calculateRsi { s with prices := closes }

/-- Streaming path (`_on_kline`) for the RSI strategy: one singleton
`feed_ohlc` call per closed candle. -/
def RSIState.streamFeed (s : RSIState) (closes : List ℚ) : RSIState :=
  closes.foldl (fun st c => st.feedOhlc [c]) s

/-- Python clamp `max(0.1, min(confidence, 1.0))`. -/
def clampConfidence (c : ℚ) : ℚ := max (1/10) (min c 1)

/-- `RSIStrategy.execute(current_price, in_position)`.  A NaN current RSI
(`none`) fails both numeric comparisons in Python, so neither branch fires.
Returns the optional signal with the post-call state, making the writes to
`self.last_action` explicit. -/
def RSIState.execute (s : RSIState) (current_price : ℚ) (in_position : Bool)
    (now : ℕ) : Option TradeSignal × RSIState :=
  match s.rsi_values.getLast? with
  | none => (none, s)
  | some none => (none, s)
  | some (some current_rsi) =>
    if current_rsi ≤ s.oversold ∧ ¬ in_position ∧ s.last_action ≠ some .buy then
      (some { type := .BUY, price := current_price, timestamp := now
              confidence := clampConfidence (1 - current_rsi / s.oversold) },
       { s with last_action := some .buy })
    else if current_rsi ≥ s.overbought ∧ in_position ∧ s.last_action ≠ some .sell then
      (some { type := .SELL, price := current_price, timestamp := now
              confidence :=
                clampConfidence ((current_rsi - s.overbought) / (100 - s.overbought)) },
       { s with last_action := some .sell })
    else (none, s)

/-! ## MACD strategy (`strategies/macd_strategy.py`) -/

/-- State of `MACDStrategy`: parameters, close-price series, the three
derived series and the last-crossover memory. -/
structure MACDState where
  fast_period : ℕ
  slow_period : ℕ
  signal_period : ℕ
  prices : List ℚ
  macd_line : List ℚ
  signal_line : List ℚ
  histogram : List ℚ
  last_crossover : Option Crossover
deriving DecidableEq, Repr

/-- `MACDStrategy.__init__(fast_period, slow_period, signal_period)`. -/
def MACDState.init (fast_period slow_period signal_period : ℕ) : MACDState :=
  { fast_period := fast_period
    slow_period := slow_period
    signal_period := signal_period
    prices := []
    macd_line := []
    signal_line := []
    histogram := []
    last_crossover := none }

/-- `_calculate_ema(data, period)`: empty when `len(data) < period`,
otherwise seeded with the simple mean of the first `period` points and
continued with `ema = (price - ema_prev) * 2/(period+1) + ema_prev`. -/
def calcEma (data : List ℚ) (period : ℕ) : List ℚ :=
  if data.length < period then []
  else
    (data.drop period).scanl
      (fun prev p => (p - prev) * (2 / ((period : ℚ) + 1)) + prev)
      (((data.take period).sum) / (period : ℚ))

/-- Python `xs[-n:]` for a nonempty suffix request: the last `n` elements
(all uses below have `0 < n ≤ xs.length`, where it agrees with Python). -/
def lastN (xs : List ℚ) (n : ℕ) : List ℚ := xs.drop (xs.length - n)

/-- `_calculate_macd`: early-returns unless `len(prices) > slow_period`;
computes both EMAs, aligns the fast EMA to the slow EMA's length to form the
MACD line, and only if the MACD line has at least `signal_period` points
computes the signal line and histogram and stores all three (the stored MACD
line trimmed to the signal line's length).  Otherwise the stored series are
left untouched. -/
def MACDState.calculateMacd (s : MACDState) : MACDState :=
  if s.prices.length ≤ s.slow_period then s
  else
    let fast_ema := calcEma s.prices s.fast_period
    let slow_ema := calcEma s.prices s.slow_period
    let macd_line :=
      ((lastN fast_ema slow_ema.length).zip slow_ema).map fun p => p.1 - p.2
    if s.signal_period ≤ macd_line.length then
      let signal_line := calcEma macd_line s.signal_period
      let histogram :=
        ((lastN macd_line signal_line.length).zip signal_line).map
          fun p => p.1 - p.2
      { s with
        macd_line := lastN macd_line signal_line.length
        signal_line := signal_line
        histogram := histogram }
    else s

/-- `MACDStrategy.feed_ohlc(ohlc_data)`: replaces the close-price series with
the batch's closes, then recomputes MACD. -/
def MACDState.feedOhlc (s : MACDState) (closes : List ℚ) : MACDState :=
  MACDState.calculateMacd { s with prices := closes }

/-- Streaming path (`_on_kline`) for the MACD strategy: one singleton
`feed_ohlc` call per closed candle. -/
def MACDState.streamFeed (s : MACDState) (closes : List ℚ) : MACDState :=
  closes.foldl (fun st c => st.feedOhlc [c]) s

/-- `MACDStrategy.execute(current_price, in_position)`: the MA crossover rule
applied to (macd_line, signal_line), with confidence
`min(abs(histogram[-1]) / 0.5, 1.0)`.  Returns the optional signal with the
post-call state, making the writes to `self.last_crossover` explicit. -/
def MACDState.execute (s : MACDState) (current_price : ℚ) (in_position : Bool)
    (now : ℕ) : Option TradeSignal × MACDState :=
  if s.macd_line.length < 2 ∨ s.signal_line.length < 2 then (none, s)
  else
    let current_macd := idx1 s.macd_line
    let current_signal := idx1 s.signal_line
    let previous_macd := idx2 s.macd_line
    let previous_signal := idx2 s.signal_line
    if previous_macd ≤ previous_signal ∧ current_macd > current_signal then
      if ¬ in_position then
        (some { type := .BUY, price := current_price, timestamp := now
                confidence := min (|idx1 s.histogram| / (1/2)) 1 },
         { s with last_crossover := some .bullish })
      else (none, s)
    else if previous_macd ≥ previous_signal ∧ current_macd < current_signal then
      if in_position then
        (some { type := .SELL, price := current_price, timestamp := now
                confidence := min (|idx1 s.histogram| / (1/2)) 1 },
         { s with last_crossover := some .bearish })
      else (none, s)
    else (none, s)

/-! ## Trading orchestrator (`trading.py`, class `TradingBot`)

The orchestrator's account and data provider are external collaborators
(`account.py` is not among the sources); their responses enter the model as
parameters.  The parts of `TradingBot`'s state the claims touch are the
active strategy reference, the `running` flag, the append-only trade ledger
and the starting balance. -/

/-- One entry of `self.trades`.  BUY records carry no `profit` key and
automatic records no `manual` key; both are `Option`al. -/
structure TradeRecord where
  type : SignalType
  price : ℚ
  timestamp : ℕ
  quantity : ℚ
  profit : Option ℚ
  manual : Bool
deriving DecidableEq, Repr

/-- Result dictionary returned by `Account.buy` / `Account.sell`; the
orchestrator reads `success` and `get("quantity", 0.0)` /
`get("profit", 0.0)`, modelled post-default. -/
structure OrderResult where
  success : Bool
  quantity : ℚ
  profit : ℚ
deriving DecidableEq, Repr

/-- One invocation of the account's order API, recorded so that theorems can
speak about how many orders a signal triggers. -/
inductive AccountCall where
  | buy (price : ℚ)
  | sell (price : ℚ)
deriving DecidableEq, Repr

/-- Orchestrator state over an abstract strategy type `Strat` (the bot holds
`self.strategy = None` until `set_strategy`). -/
structure BotState (Strat : Type) where
  strategy : Option Strat
  running : Bool
  trades : List TradeRecord
  start_balance : ℚ

/-- `TradingBot.set_strategy(strategy)`: unconditionally stores the strategy
reference (the method contains no state check and no error path). -/
def BotState.setStrategy {Strat : Type} (s : BotState Strat) (strat : Strat) :
    BotState Strat :=
  { s with strategy := some strat }

/-- `TradingBot._process_signal(signal)`: one `Account.buy` or `Account.sell`
call according to the signal's type; on success exactly one trade record is
appended (BUY: type/price/timestamp/quantity; SELL: additionally profit), on
failure the ledger is untouched and no retry happens.  The account's response
is the `buyResult`/`sellResult` parameter; the returned list of
`AccountCall`s records every order invocation the method performs. -/
def processSignal (buyResult sellResult : OrderResult)
    (trades : List TradeRecord) (signal : TradeSignal) :
    List TradeRecord × List AccountCall :=
  match signal.type with
  | .BUY =>
    (if buyResult.success then
       trades ++ [{ type := .BUY, price := signal.price,
                    timestamp := signal.timestamp,
                    quantity := buyResult.quantity,
                    profit := none, manual := false }]
     else trades,
     [AccountCall.buy signal.price])
  | .SELL =>
    (if sellResult.success then
       trades ++ [{ type := .SELL, price := signal.price,
                    timestamp := signal.timestamp,
                    quantity := sellResult.quantity,
                    profit := some sellResult.profit, manual := false }]
     else trades,
     [AccountCall.sell signal.price])

/-- The metrics dictionary built by `get_performance_metrics`. -/
structure Metrics where
  start_balance : ℚ
  current_balance : ℚ
  profit : ℚ
  profit_percent : ℚ
  num_trades : ℕ
  num_buy_trades : ℕ
  num_sell_trades : ℕ
  win_rate : ℚ
deriving DecidableEq, Repr

/-- `TradingBot.get_performance_metrics()`.  `current_balance` is the
account's `get_balance()` answer, passed in as a parameter.  The division
`profit / self.start_balance` is unguarded in the code; Python raises
`ZeroDivisionError` when `start_balance == 0`, modelled as `none`. -/
def BotState.getPerformanceMetrics {Strat : Type} (s : BotState Strat)
    (current_balance : ℚ) : Option Metrics :=
  if s.start_balance = 0 then none
  else
    let profit := current_balance - s.start_balance
    let buy_trades := s.trades.filter fun t => t.type = .BUY
    let sell_trades := s.trades.filter fun t => t.type = .SELL
    let winning_trades := sell_trades.filter fun t => 0 < t.profit.getD 0
    some
      { start_balance := s.start_balance
        current_balance := current_balance
        profit := profit
        profit_percent := profit / s.start_balance * 100
        num_trades := s.trades.length
        num_buy_trades := buy_trades.length
        num_sell_trades := sell_trades.length
        win_rate :=
          if sell_trades.length = 0 then 0
          else ((winning_trades.length : ℚ) / (sell_trades.length : ℚ)) * 100 }

/-- The figures logged by `_log_performance_summary` (the win rate is only
logged when sell trades exist, hence `Option`al). -/
structure PerfSummary where
  profit : ℚ
  profit_percent : ℚ
  num_trades : ℕ
  num_buy_trades : ℕ
  num_sell_trades : ℕ
  win_rate : Option ℚ
deriving DecidableEq, Repr

/-- `TradingBot._log_performance_summary()`: computes the same unguarded
`(profit / self.start_balance) * 100` before logging; `start_balance == 0`
raises `ZeroDivisionError` (modelled as `none`) and nothing is logged. -/
def BotState.logPerformanceSummary {Strat : Type} (s : BotState Strat)
    (current_balance : ℚ) : Option PerfSummary :=
  if s.start_balance = 0 then none
  else
    let profit := current_balance - s.start_balance
    let buy_trades := s.trades.filter fun t => t.type = .BUY
    let sell_trades := s.trades.filter fun t => t.type = .SELL
    let winning_trades := sell_trades.filter fun t => 0 < t.profit.getD 0
    some
      { profit := profit
        profit_percent := profit / s.start_balance * 100
        num_trades := s.trades.length
        num_buy_trades := buy_trades.length
        num_sell_trades := sell_trades.length
        win_rate :=
          if sell_trades.length = 0 then none
          else some (((winning_trades.length : ℚ) / (sell_trades.length : ℚ)) * 100) }

/-! ## Helper lemmas -/

/-- `_calculate_moving_averages` never touches the close-price series. -/
theorem MAState.calculateMovingAverages_prices (s : MAState) :
    s.calculateMovingAverages.prices = s.prices := by
  unfold MAState.calculateMovingAverages
  split <;> rfl

/-- After `feed_ohlc(batch)` the MA strategy's close-price series is exactly
the batch's closes (replace semantics). -/
theorem ma_feedOhlc_prices (s : MAState) (cs : List ℚ) :
    (s.feedOhlc cs).prices = cs := by
  unfold MAState.feedOhlc
  rw [MAState.calculateMovingAverages_prices]

/-- `_calculate_rsi` never touches the close-price series. -/
theorem RSIState.calculateRsi_prices (s : RSIState) :
    s.calculateRsi.prices = s.prices := by
  unfold RSIState.calculateRsi
  split <;> rfl

/-- After `feed_ohlc(batch)` the RSI strategy's close-price series is exactly
the batch's closes (replace semantics). -/
theorem rsi_feedOhlc_prices (s : RSIState) (cs : List ℚ) :
    (s.feedOhlc cs).prices = cs := by
  unfold RSIState.feedOhlc
  rw [RSIState.calculateRsi_prices]

/-- `_calculate_macd` never touches the close-price series. -/
theorem MACDState.calculateMacd_prices (s : MACDState) :
    s.calculateMacd.prices = s.prices := by
  unfold MACDState.calculateMacd
  split
  · rfl
  · dsimp only
    split <;> rfl

/-- After `feed_ohlc(batch)` the MACD strategy's close-price series is
exactly the batch's closes (replace semantics). -/
theorem macd_feedOhlc_prices (s : MACDState) (cs : List ℚ) :
    (s.feedOhlc cs).prices = cs := by
  unfold MACDState.feedOhlc
  rw [MACDState.calculateMacd_prices]

/-- Streaming a nonempty candle sequence one candle per `feed_ohlc` call
leaves the MA strategy holding only the LAST candle's close. -/
theorem ma_streamFeed_prices (cs : List ℚ) :
    ∀ (s : MAState) (c : ℚ), cs.getLast? = some c →
      (s.streamFeed cs).prices = [c] := by
  induction cs with
  | nil => intro s c h; simp at h
  | cons a l ih =>
    intro s c h
    cases l with
    | nil =>
      simp at h
      subst h
      simpa [MAState.streamFeed] using ma_feedOhlc_prices s [a]
    | cons b m =>
      have h' : (b :: m).getLast? = some c := by simpa using h
      simpa [MAState.streamFeed] using ih (s.feedOhlc [a]) c h'

/-- Streaming a nonempty candle sequence one candle per `feed_ohlc` call
leaves the RSI strategy holding only the LAST candle's close. -/
theorem rsi_streamFeed_prices (cs : List ℚ) :
    ∀ (s : RSIState) (c : ℚ), cs.getLast? = some c →
      (s.streamFeed cs).prices = [c] := by
  induction cs with
  | nil => intro s c h; simp at h
  | cons a l ih =>
    intro s c h
    cases l with
    | nil =>
      simp at h
      subst h
      simpa [RSIState.streamFeed] using rsi_feedOhlc_prices s [a]
    | cons b m =>
      have h' : (b :: m).getLast? = some c := by simpa using h
      simpa [RSIState.streamFeed] using ih (s.feedOhlc [a]) c h'

/-- Streaming a nonempty candle sequence one candle per `feed_ohlc` call
leaves the MACD strategy holding only the LAST candle's close. -/
theorem macd_streamFeed_prices (cs : List ℚ) :
    ∀ (s : MACDState) (c : ℚ), cs.getLast? = some c →
      (s.streamFeed cs).prices = [c] := by
  induction cs with
  | nil => intro s c h; simp at h
  | cons a l ih =>
    intro s c h
    cases l with
    | nil =>
      simp at h
      subst h
      simpa [MACDState.streamFeed] using macd_feedOhlc_prices s [a]
    | cons b m =>
      have h' : (b :: m).getLast? = some c := by simpa using h
      simpa [MACDState.streamFeed] using ih (s.feedOhlc [a]) c h'

/-! ## Claim theorems -/

/-- C1 (counterexample): streaming single-candle feeding is NOT equivalent to
batch install.  With the moving-average strategy (fast 1, slow 2) and the two
closed candles `[1, 2]`, feeding them one per event leaves the strategy with
close series `[2]` and empty MA series, while the batch install leaves
`[1, 2]` with both MA series computed — the two resulting states differ. -/
theorem C1_streaming_batch_differ :
    MAState.streamFeed (MAState.init 1 2) [1, 2] ≠
      MAState.feedOhlc (MAState.init 1 2) [1, 2] := by
  decide

/-- C1 (amended): `feed_ohlc` REPLACES the retained close-price series with
the batch's closes for every strategy, so the streaming path (one closed
candle per `feed_ohlc` call) leaves a strategy holding only the last candle's
close — append semantics does not hold, and streaming agrees with a batch
install only for single-candle batches. -/
theorem C1_feed_replace_semantics (sMA : MAState) (sRSI : RSIState)
    (sMACD : MACDState) (cs : List ℚ) (c : ℚ) (h : cs.getLast? = some c) :
    (sMA.feedOhlc cs).prices = cs ∧
    (sRSI.feedOhlc cs).prices = cs ∧
    (sMACD.feedOhlc cs).prices = cs ∧
    (sMA.streamFeed cs).prices = [c] ∧
    (sRSI.streamFeed cs).prices = [c] ∧
    (sMACD.streamFeed cs).prices = [c] :=
  ⟨ma_feedOhlc_prices sMA cs, rsi_feedOhlc_prices sRSI cs,
   macd_feedOhlc_prices sMACD cs, ma_streamFeed_prices cs sMA c h,
   rsi_streamFeed_prices cs sRSI c h,
   macd_streamFeed_prices cs sMACD c h⟩

/-- C1 (witness): the amended statement at the default-parameter strategies
and the candle batch `[1, 2]`. -/
theorem C1_feed_replace_semantics_witness :
    ([(1 : ℚ), 2].getLast? = some 2) ∧
    ((MAState.init 9 20).feedOhlc [1, 2]).prices = [1, 2] ∧
    ((MAState.init 9 20).streamFeed [1, 2]).prices = [2] ∧
    ((RSIState.init 14 30 70).streamFeed [1, 2]).prices = [2] ∧
    ((MACDState.init 12 26 9).streamFeed [1, 2]).prices = [2] := by
  have h := C1_feed_replace_semantics (MAState.init 9 20)
    (RSIState.init 14 30 70) (MACDState.init 12 26 9) [1, 2] 2 (by decide)
  exact ⟨by decide, h.1, h.2.2.2.1, h.2.2.2.2.1, h.2.2.2.2.2⟩

/-- C2 (counterexample): `execute` DOES mutate strategy state.  For the RSI
strategy with derived series `[20]` (RSI 20 ≤ oversold 30), empty last-action
memory and `in_position = false`, `execute` emits a BUY and writes
`last_action := 'buy'`, so the post-call state differs from the pre-call
state. -/
theorem C2_execute_mutates_state :
    ((RSIState.mk 14 30 70 [] [some 20] none).execute 100 false 7).2 ≠
      RSIState.mk 14 30 70 [] [some 20] none := by
  decide

/-- C2 (amended): `execute` never mutates the price series or any derived
series of any strategy, and whenever it returns no signal it leaves the
whole state unchanged; the only mutation it ever performs is the write to
the last-crossover / last-action memory cell in a signal-emitting branch.
(At most one signal per call is inherent in its `Option` result type.) -/
theorem C2_execute_frame (sMA : MAState) (sRSI : RSIState) (sMACD : MACDState)
    (p : ℚ) (ip : Bool) (now : ℕ) :
    ((sMA.execute p ip now).2.prices = sMA.prices ∧
     (sMA.execute p ip now).2.fast_ma = sMA.fast_ma ∧
     (sMA.execute p ip now).2.slow_ma = sMA.slow_ma ∧
     ((sMA.execute p ip now).1 = none → (sMA.execute p ip now).2 = sMA)) ∧
    ((sRSI.execute p ip now).2.prices = sRSI.prices ∧
     (sRSI.execute p ip now).2.rsi_values = sRSI.rsi_values ∧
     ((sRSI.execute p ip now).1 = none → (sRSI.execute p ip now).2 = sRSI)) ∧
    ((sMACD.execute p ip now).2.prices = sMACD.prices ∧
     (sMACD.execute p ip now).2.macd_line = sMACD.macd_line ∧
     (sMACD.execute p ip now).2.signal_line = sMACD.signal_line ∧
     (sMACD.execute p ip now).2.histogram = sMACD.histogram ∧
     ((sMACD.execute p ip now).1 = none → (sMACD.execute p ip now).2 = sMACD)) := by
  refine ⟨?_, ?_, ?_⟩
  · unfold MAState.execute
    dsimp only
    split_ifs <;> simp
  · unfold RSIState.execute
    rcases hlast : sRSI.rsi_values.getLast? with _ | _ | r <;> simp [hlast]
    split_ifs <;> simp
  · unfold MACDState.execute
    dsimp only
    split_ifs <;> simp

/-- C2 (witness): the amended statement at the freshly constructed
default-parameter strategies, where `execute` returns no signal and the
state is unchanged. -/
theorem C2_execute_frame_witness :
    ((MAState.init 9 20).execute 5 false 0).2.prices = (MAState.init 9 20).prices ∧
    (((RSIState.init 14 30 70).execute 5 false 0).1 = none →
      ((RSIState.init 14 30 70).execute 5 false 0).2 = RSIState.init 14 30 70) ∧
    ((MACDState.init 12 26 9).execute 5 false 0).2.histogram =
      (MACDState.init 12 26 9).histogram := by
  have h := C2_execute_frame (MAState.init 9 20) (RSIState.init 14 30 70)
    (MACDState.init 12 26 9) 5 false 0
  exact ⟨h.1.1, h.2.1.2.2, h.2.2.2.2.2.1⟩

/-- C3 (counterexample): `set_strategy` succeeds and replaces the active
strategy even while the orchestrator is Running: on a concrete bot with
`running = true` it installs the new strategy (there is no error path in the
method at all). -/
theorem C3_set_strategy_while_running :
    (BotState.mk (some 0) true [] 1000 : BotState ℕ).running = true ∧
    ((BotState.mk (some 0) true [] 1000 : BotState ℕ).setStrategy 1).strategy = some 1 ∧
    ((BotState.mk (some 0) true [] 1000 : BotState ℕ).setStrategy 1).strategy ≠ some 0 := by
  refine ⟨rfl, rfl, by decide⟩

/-- C3 (amended): `set_strategy` unconditionally replaces the active
strategy reference in EVERY orchestrator state — Running included — and has
no failure path; the rest of the bot state is untouched. -/
theorem C3_set_strategy_unconditional {Strat : Type} (s : BotState Strat)
    (strat : Strat) :
    (s.setStrategy strat).strategy = some strat ∧
    (s.setStrategy strat).running = s.running ∧
    (s.setStrategy strat).trades = s.trades ∧
    (s.setStrategy strat).start_balance = s.start_balance :=
  ⟨rfl, rfl, rfl, rfl⟩

/-- C4 (code evaluation at the failing input): `_calculate_rsi` divides
`avg_gain / avg_loss` with NO special case for `avg_loss = 0`.  On the flat
close series `[5, 5, 5]` with period 2 every delta is 0, so
`avg_gain = avg_loss = 0` and NumPy's `0/0` makes the computed RSI value NaN
(`none` in this model) — not a number in `[0, 100]` and not a saturation to
100, contradicting the claim that the division is explicitly special-cased. -/
theorem C4_rsi_nan_on_flat_series :
    ((RSIState.init 2 30 70).feedOhlc [5, 5, 5]).rsi_values = [none] := by
  norm_num [RSIState.feedOhlc, RSIState.calculateRsi, RSIState.init, rsiSeries,
    diffs, smoothedAvgs, rsiOf, List.scanl]

/-- C5: no signal before warm-up.  The MA and MACD strategies return no
signal whenever either of their two compared derived series has fewer than
two values, and the RSI strategy returns no signal while its RSI series is
empty. -/
theorem C5_no_signal_before_warmup :
    (∀ (s : MAState) (p : ℚ) (ip : Bool) (now : ℕ),
        s.fast_ma.length < 2 ∨ s.slow_ma.length < 2 →
        (s.execute p ip now).1 = none) ∧
    (∀ (s : MACDState) (p : ℚ) (ip : Bool) (now : ℕ),
        s.macd_line.length < 2 ∨ s.signal_line.length < 2 →
        (s.execute p ip now).1 = none) ∧
    (∀ (s : RSIState) (p : ℚ) (ip : Bool) (now : ℕ),
        s.rsi_values = [] → (s.execute p ip now).1 = none) := by
  refine ⟨?_, ?_, ?_⟩
  · intro s p ip now h
    unfold MAState.execute
    rw [if_pos h]
  · intro s p ip now h
    unfold MACDState.execute
    rw [if_pos h]
  · intro s p ip now h
    unfold RSIState.execute
    rw [h]
    rfl

/-- C5 (witness): the freshly constructed default-parameter strategies have
empty derived series, and `execute` returns no signal on them. -/
theorem C5_no_signal_before_warmup_witness :
    ((MAState.init 9 20).fast_ma.length < 2 ∨ (MAState.init 9 20).slow_ma.length < 2) ∧
    ((MAState.init 9 20).execute 5 false 0).1 = none ∧
    ((MACDState.init 12 26 9).execute 5 false 0).1 = none ∧
    ((RSIState.init 14 30 70).execute 5 false 0).1 = none :=
  ⟨Or.inl (by decide),
   C5_no_signal_before_warmup.1 (MAState.init 9 20) 5 false 0 (Or.inl (by decide)),
   C5_no_signal_before_warmup.2.1 (MACDState.init 12 26 9) 5 false 0 (Or.inl (by decide)),
   C5_no_signal_before_warmup.2.2 (RSIState.init 14 30 70) 5 false 0 rfl⟩

/-- C6: with at least two values in each MA series, the moving-average
crossover strategy's `execute` returns a BUY signal exactly when the
previous fast value is ≤ the previous slow value, the current fast value is
strictly above the current slow value and `in_position` is false; a SELL
signal exactly when the previous fast value is ≥ the previous slow value,
the current fast value is strictly below the current slow value and
`in_position` is true; and no signal in every other case — exactly the
asymmetric non-strict comparisons on the "previous" side. -/
theorem C6_ma_crossover_rule (s : MAState) (p : ℚ) (ip : Bool) (now : ℕ)
    (hf : 2 ≤ s.fast_ma.length) (hs : 2 ≤ s.slow_ma.length) :
    (s.execute p ip now).1 =
      if idx2 s.fast_ma ≤ idx2 s.slow_ma ∧ idx1 s.slow_ma < idx1 s.fast_ma ∧ ip = false
      then some { type := .BUY, price := p, timestamp := now }
      else if idx2 s.slow_ma ≤ idx2 s.fast_ma ∧ idx1 s.fast_ma < idx1 s.slow_ma ∧ ip = true
      then some { type := .SELL, price := p, timestamp := now }
      else none := by
  unfold MAState.execute
  rw [if_neg (by omega)]
  dsimp only
  cases ip <;> split_ifs <;> simp_all
  linarith

/-- C6 (witness): with stored series `fast_ma = [1, 3]`, `slow_ma = [2, 2]`
(previous fast 1 ≤ previous slow 2, current fast 3 > current slow 2) and no
position, `execute` fires a BUY at the current price. -/
theorem C6_ma_crossover_rule_witness :
    ((MAState.mk 1 2 [] [1, 3] [2, 2] none).execute 5 false 0).1 =
      some { type := .BUY, price := 5, timestamp := 0 } := by
  have h := C6_ma_crossover_rule (MAState.mk 1 2 [] [1, 3] [2, 2] none) 5 false 0
    (by decide) (by decide)
  rw [h]
  norm_num [idx1, idx2]

/-- C7: signal processing is at-most-once and atomic with respect to the
ledger.  A BUY (resp. SELL) signal triggers exactly one `Account.buy`
(resp. `Account.sell`) invocation — never more, so never a retry — and the
ledger grows by exactly the one matching record (side, price, timestamp,
quantity, and profit for sells) when the order succeeds, and is left
untouched when it fails. -/
theorem C7_process_signal_at_most_once (br sr : OrderResult)
    (trades : List TradeRecord) (sig : TradeSignal) :
    ((processSignal br sr trades sig).2.length = 1) ∧
    (sig.type = .BUY →
      (processSignal br sr trades sig).2 = [AccountCall.buy sig.price] ∧
      (processSignal br sr trades sig).1 =
        (if br.success then
           trades ++ [{ type := .BUY, price := sig.price,
                        timestamp := sig.timestamp, quantity := br.quantity,
                        profit := none, manual := false }]
         else trades)) ∧
    (sig.type = .SELL →
      (processSignal br sr trades sig).2 = [AccountCall.sell sig.price] ∧
      (processSignal br sr trades sig).1 =
        (if sr.success then
           trades ++ [{ type := .SELL, price := sig.price,
                        timestamp := sig.timestamp, quantity := sr.quantity,
                        profit := some sr.profit, manual := false }]
         else trades)) := by
  rcases sig with ⟨t, sp, ts, conf⟩
  cases t <;> simp [processSignal]

/-- C7 (witness): a successful BUY at price 100 appends exactly its one
record to an empty ledger after exactly one `Account.buy` call. -/
theorem C7_process_signal_witness :
    (processSignal ⟨true, 2, 0⟩ ⟨true, 1, 3⟩ []
        { type := .BUY, price := 100, timestamp := 5 }).2 =
      [AccountCall.buy 100] ∧
    (processSignal ⟨true, 2, 0⟩ ⟨true, 1, 3⟩ []
        { type := .BUY, price := 100, timestamp := 5 }).1 =
      [{ type := .BUY, price := 100, timestamp := 5, quantity := 2,
         profit := none, manual := false }] := by
  have h := (C7_process_signal_at_most_once ⟨true, 2, 0⟩ ⟨true, 1, 3⟩ []
    { type := .BUY, price := 100, timestamp := 5 }).2.1 rfl
  exact ⟨h.1, by rw [h.2]; rfl⟩

/-- C8: for every orchestrator state with a nonzero starting balance,
`get_performance_metrics` returns profit = current − start,
profit percent = profit / start × 100, the counts of BUY and SELL records in
the ledger, and a win rate of (sell records with profit > 0) / (sell
records) × 100, equal to 0 when there are no sell records. -/
theorem C8_performance_metrics {Strat : Type} (s : BotState Strat) (cb : ℚ)
    (h : s.start_balance ≠ 0) :
    ∃ m, s.getPerformanceMetrics cb = some m ∧
      m.profit = cb - s.start_balance ∧
      m.profit_percent = (cb - s.start_balance) / s.start_balance * 100 ∧
      m.num_trades = s.trades.length ∧
      m.num_buy_trades = (s.trades.filter fun t => t.type = .BUY).length ∧
      m.num_sell_trades = (s.trades.filter fun t => t.type = .SELL).length ∧
      ((s.trades.filter fun t => t.type = .SELL) = [] → m.win_rate = 0) ∧
      ((s.trades.filter fun t => t.type = .SELL) ≠ [] →
        m.win_rate =
          ((((s.trades.filter fun t => t.type = .SELL).filter
              fun t => 0 < t.profit.getD 0).length : ℚ) /
            (((s.trades.filter fun t => t.type = .SELL).length : ℚ))) * 100) := by
  unfold BotState.getPerformanceMetrics
  rw [if_neg h]
  refine ⟨_, rfl, rfl, rfl, rfl, rfl, rfl, ?_, ?_⟩
  · intro hempty
    simp [hempty]
  · intro hne
    rw [if_neg (by simpa [List.length_eq_zero] using hne)]

/-- C8 (witness): a bot that started at 1000, now holds 1100 and has one
BUY and one winning SELL in its ledger reports profit 100, profit percent
10, one trade of each side and a 100% win rate. -/
theorem C8_performance_metrics_witness :
    ∃ m, (BotState.mk (some 0) false
        [{ type := .BUY, price := 100, timestamp := 1, quantity := 1,
           profit := none, manual := false },
         { type := .SELL, price := 110, timestamp := 2, quantity := 1,
           profit := some 10, manual := false }] 1000 :
        BotState ℕ).getPerformanceMetrics 1100 = some m ∧
      m.profit = 100 ∧ m.profit_percent = 10 ∧ m.num_trades = 2 ∧
      m.num_buy_trades = 1 ∧ m.num_sell_trades = 1 ∧ m.win_rate = 100 := by
  obtain ⟨m, hm, hp, hpc, hn, hb, hsl, -, hw⟩ :=
    C8_performance_metrics
      (BotState.mk (some 0) false
        [{ type := .BUY, price := 100, timestamp := 1, quantity := 1,
           profit := none, manual := false },
         { type := .SELL, price := 110, timestamp := 2, quantity := 1,
           profit := some 10, manual := false }] 1000) 1100 (by norm_num)

  have h1 : m.num_buy_trades = 1 := by rw [hb]; exact rfl
  have h2 : m.num_sell_trades = 1 := by rw [hsl]; exact rfl
  have h3 : m.win_rate = 100 := by
    rw [hw (fun hc => by
      simpa [hc] using (show (List.filter (fun t => decide (t.type = SignalType.SELL))
        ([{ type := .BUY, price := 100, timestamp := 1, quantity := 1,
            profit := none, manual := false },
          { type := .SELL, price := 110, timestamp := 2, quantity := 1,
            profit := some 10, manual := false }] : List TradeRecord)).length = 1
        from rfl))]
    norm_num [show (List.filter (fun t => decide (0 < t.profit.getD 0))
      (List.filter (fun t => decide (t.type = SignalType.SELL))
        ([{ type := .BUY, price := 100, timestamp := 1, quantity := 1,
            profit := none, manual := false },
          { type := .SELL, price := 110, timestamp := 2, quantity := 1,
            profit := some 10, manual := false }] : List TradeRecord))).length = 1
      from rfl,
      show (List.filter (fun t => decide (t.type = SignalType.SELL))
        ([{ type := .BUY, price := 100, timestamp := 1, quantity := 1,
            profit := none, manual := false },
          { type := .SELL, price := 110, timestamp := 2, quantity := 1,
            profit := some 10, manual := false }] : List TradeRecord)).length = 1
      from rfl]
  exact ⟨m, hm, by rw [hp]; norm_num, by rw [hpc]; norm_num, hn, h1, h2, h3⟩

/-- C9: a batch feed shorter than the warm-up threshold (fewer than
`slow_period` closes for the MA strategy, at most `slow_period` closes for
MACD) leaves the previously computed derived series untouched instead of
clearing or recomputing them; consequently `execute` can emit a signal
derived from prices that are no longer in the retained history, as the
concrete MA instance in the last conjunct shows (close series replaced by
`[5]`, yet a BUY fires from the stale MA values). -/
theorem C9_short_batch_retains_derived_series :
    (∀ (s : MAState) (cs : List ℚ), cs.length < s.slow_period →
        (s.feedOhlc cs).fast_ma = s.fast_ma ∧
        (s.feedOhlc cs).slow_ma = s.slow_ma) ∧
    (∀ (s : MACDState) (cs : List ℚ), cs.length ≤ s.slow_period →
        (s.feedOhlc cs).macd_line = s.macd_line ∧
        (s.feedOhlc cs).signal_line = s.signal_line ∧
        (s.feedOhlc cs).histogram = s.histogram) ∧
    (((MAState.mk 1 2 [1, 2, 3, 4] [1, 3] [2, 2] none).feedOhlc [5]).execute
        5 false 0).1 = some { type := .BUY, price := 5, timestamp := 0 } := by
  refine ⟨?_, ?_, ?_⟩
  · intro s cs h
    unfold MAState.feedOhlc MAState.calculateMovingAverages
    rw [if_neg (by simpa using Nat.not_le.mpr h)]
    exact ⟨rfl, rfl⟩
  · intro s cs h
    unfold MACDState.feedOhlc MACDState.calculateMacd
    rw [if_pos (by simpa using h)]
    exact ⟨rfl, rfl, rfl⟩
  · decide

/-- C9 (witness): the retention clauses at the concrete stale-MA instance of
the theorem's last conjunct and at a short MACD batch. -/
theorem C9_short_batch_retains_witness :
    ((MAState.mk 1 2 [1, 2, 3, 4] [1, 3] [2, 2] none).feedOhlc [5]).fast_ma = [1, 3] ∧
    ((MAState.mk 1 2 [1, 2, 3, 4] [1, 3] [2, 2] none).feedOhlc [5]).slow_ma = [2, 2] ∧
    ((MACDState.mk 1 2 1 [1, 2, 3] [7] [8] [9] none).feedOhlc [5, 6]).macd_line = [7] := by
  have h1 := C9_short_batch_retains_derived_series.1
    (MAState.mk 1 2 [1, 2, 3, 4] [1, 3] [2, 2] none) [5] (by decide)
  have h2 := C9_short_batch_retains_derived_series.2.1
    (MACDState.mk 1 2 1 [1, 2, 3] [7] [8] [9] none) [5, 6] (by decide)
  exact ⟨h1.1, h1.2, h2.1⟩

/-- C10: both `get_performance_metrics` and the stop-time performance
summary divide by the starting balance unconditionally, so they fail with a
division-by-zero error exactly when the bot's account reported a starting
balance of 0 at construction, and return their figures without error for
every nonzero starting balance. -/
theorem C10_metrics_division_by_zero {Strat : Type} (s : BotState Strat)
    (cb : ℚ) :
    ((s.getPerformanceMetrics cb).isNone ↔ s.start_balance = 0) ∧
    ((s.logPerformanceSummary cb).isNone ↔ s.start_balance = 0) := by
  constructor
  · unfold BotState.getPerformanceMetrics
    split_ifs with h <;> simp [h]
  · unfold BotState.logPerformanceSummary
    split_ifs with h <;> simp [h]

end TraderBot
